import Mathlib

/-!
Verification of the AudioLoopback driver core (RDCAudio) against its
natural-language specification.

This file shallowly embeds the parts of the source that the claims talk
about:

* `RDC_ClientMap` (src/RDCAudio/DeviceClients/RDC_ClientMap.cpp): the
  primary/shadow client registry.  `std::map` values are embedded as
  functions `key -> Option value`; the `std::vector<RDC_Client*>`
  secondary-index entries are embedded as lists of client IDs (a pointer
  into a byID map node is identified by the node's key, which is the
  client ID; the design only reads values through those pointers).
* `RDC_Clients` (src/RDCAudio/DeviceClients/RDC_Clients.cpp): the
  IO-reference-counting layer.  `mStartCount` is a `UInt64`; it is
  embedded as `Nat` together with the explicit `UINT64_MAX` guard the
  code performs.
* `RDC_Device` IO-cycle error handling, the loopback clock and the
  sample-rate setters (src/RDCAudio/RDC_Device.cpp).  `Float64` values
  are embedded as exact rationals; the explicit `static_cast<UInt64>`
  truncations of nonnegative values are embedded as `Int.toNat ∘ Rat.floor`
  with reduction mod 2^64.
* `CARingBuffer`: only the header is part of the tree, so `Store` and
  `Fetch` are modelled from the specification (see the doc comments).
  Frames are embedded as opaque machine words (`Nat`), which makes the
  bit-exactness claims meaningful without modelling `Float32`.

C++ code that throws is embedded as returning a pair of an
`Except RDCError _` result and the (possibly partially mutated) state, so
that exception paths that escape mid-mutation keep their side effects.
-/

/-- Error kinds thrown by the embedded code (CAException codes and the
driver's own exception classes, from RDC_Types.h and the CoreAudio error
constants used in RDC_Device.cpp). `ringBufferCode` carries the raw
`CARingBufferError` value that `RDC_Device::WriteOutputData` rethrows as
`CAException(err)`. -/
inductive RDCError where
  | invalidClient
  | illegalOperation
  | unspecified
  | unsupportedFormat
  | ringBufferCode (code : Int)
  deriving DecidableEq, Repr

/-- An `std::map key value`, embedded extensionally as a partial function.
Key sets, per-key values and per-key list orders are exactly the
pointwise behaviour of this function. -/
def Map (α β : Type) : Type := α → Option β

namespace Map

/-- Embeds an empty `std::map`. -/
def empty {α β : Type} : Map α β := fun _ => none

/-- Embeds `m[k] = v` (insert-or-assign, which is what both
`operator[]` assignment and the code's uses amount to). -/
def insert {α β : Type} [DecidableEq α] (m : Map α β) (k : α) (v : β) : Map α β :=
  fun q => if q = k then some v else m q

/-- Embeds `m.erase(k)` (erasing the whole mapped value for the key). -/
def erase {α β : Type} [DecidableEq α] (m : Map α β) (k : α) : Map α β :=
  fun q => if q = k then none else m q

/-- Embeds `m.find(k)` / `m.count(k)` / `m.at(k)` lookups. -/
def find {α β : Type} (m : Map α β) (k : α) : Option β := m k

@[simp] theorem insert_apply {α β : Type} [DecidableEq α] (m : Map α β) (k q : α) (v : β) :
    insert m k v q = if q = k then some v else m q := rfl

@[simp] theorem erase_apply {α β : Type} [DecidableEq α] (m : Map α β) (k q : α) :
    erase m k q = if q = k then none else m q := rfl

@[simp] theorem find_def {α β : Type} (m : Map α β) (k : α) : find m k = m k := rfl

@[simp] theorem empty_apply {α β : Type} (k : α) : (empty : Map α β) k = none := rfl

end Map

/-- Embeds `mClientMapByPIDShadow[pid].push_back(ptr)` and its bundle-ID
counterpart: `operator[]` default-constructs an empty vector when the key
is absent, then the pointer (identified by the client ID) is appended. -/
def pushPtr {α : Type} [DecidableEq α] (m : Map α (List Nat)) (k : α) (cid : Nat) :
    Map α (List Nat) :=
  m.insert k ((m.find k).getD [] ++ [cid])

/-- Embeds RDC_Client (src/RDCAudio/DeviceClients/RDC_Client.h).
`mClientID` is a `UInt32`, `mProcessID` a `pid_t` (signed), `mBundleID` a
`CACFString` whose invalid state (`IsValid() = false`) is `none`.  The
field `mDoingIOFlag` embeds the source field `mDoingIO` (renamed here).
The `deriving`d `Inhabited` default is the value produced by
`std::map::operator[]` value-initialisation: zero scalars plus the
in-class initialisers `mIsNativeEndian = true`, `mDoingIO = false`. -/
structure RDC_Client where
  mClientID : Nat := 0
  mProcessID : Int := 0
  mIsNativeEndian : Bool := true
  mBundleID : Option String := none
  mDoingIOFlag : Bool := false
  deriving DecidableEq, Repr, Inhabited

/-- Embeds the state of RDC_ClientMap
(src/RDCAudio/DeviceClients/RDC_ClientMap.h lines 133-149): the three
primary/shadow map pairs plus the past-clients map (no shadow). -/
@[ext]
structure RDC_ClientMap where
  mClientMap : Map Nat RDC_Client
  mClientMapShadow : Map Nat RDC_Client
  mClientMapByPID : Map Int (List Nat)
  mClientMapByPIDShadow : Map Int (List Nat)
  mClientMapByBundleID : Map String (List Nat)
  mClientMapByBundleIDShadow : Map String (List Nat)
  mPastClientMap : Map String RDC_Client

namespace RDC_ClientMap

/-- Embeds a freshly constructed RDC_ClientMap: all maps empty. -/
def emptyMap : RDC_ClientMap :=
  { mClientMap := Map.empty
    mClientMapShadow := Map.empty
    mClientMapByPID := Map.empty
    mClientMapByPIDShadow := Map.empty
    mClientMapByBundleID := Map.empty
    mClientMapByBundleIDShadow := Map.empty
    mPastClientMap := Map.empty }

/-- Embeds RDC_ClientMap::AddClientToShadowMaps
(RDC_ClientMap.cpp lines 59-79): throws InvalidClient when the client ID
is already in the shadow byID map, otherwise inserts the client into the
shadow byID map and appends a pointer to it to the shadow PID index and
(when the bundle ID is valid) the shadow bundle-ID index. -/
def AddClientToShadowMaps (s : RDC_ClientMap) (c : RDC_Client) :
    Except RDCError RDC_ClientMap :=
  if (s.mClientMapShadow.find c.mClientID).isSome then
    .error .invalidClient
  else
    .ok { s with
          mClientMapShadow := s.mClientMapShadow.insert c.mClientID c
          mClientMapByPIDShadow := pushPtr s.mClientMapByPIDShadow c.mProcessID c.mClientID
          mClientMapByBundleIDShadow :=
            match c.mBundleID with
            | some b => pushPtr s.mClientMapByBundleIDShadow b c.mClientID
            | none => s.mClientMapByBundleIDShadow }

/-- Embeds RDC_ClientMap::SwapInShadowMapsRT
(RDC_ClientMap.cpp lines 192-209): swaps each primary map with its
shadow.  (The synchronous queueing to the realtime worker is a
sequencing mechanism; the state change is the three swaps.) -/
def SwapInShadowMapsRT (s : RDC_ClientMap) : RDC_ClientMap :=
  { s with
    mClientMap := s.mClientMapShadow
    mClientMapShadow := s.mClientMap
    mClientMapByPID := s.mClientMapByPIDShadow
    mClientMapByPIDShadow := s.mClientMapByPID
    mClientMapByBundleID := s.mClientMapByBundleIDShadow
    mClientMapByBundleIDShadow := s.mClientMapByBundleID }

/-- Embeds RDC_ClientMap::AddClient (RDC_ClientMap.cpp lines 36-57):
add to the shadow maps, swap, add again, then record the client in
mPastClientMap when its bundle ID is valid.  A thrown exception leaves
whatever state had been reached when it escaped. -/
def AddClient (s : RDC_ClientMap) (c : RDC_Client) :
    Except RDCError Unit × RDC_ClientMap :=
  match AddClientToShadowMaps s c with
  | .error e => (.error e, s)
  | .ok s1 =>
    let s2 := SwapInShadowMapsRT s1
    match AddClientToShadowMaps s2 c with
    | .error e => (.error e, s2)
    | .ok s3 =>
      (.ok (), { s3 with
                 mPastClientMap :=
                   match c.mBundleID with
                   | some b => s3.mPastClientMap.insert b c
                   | none => s3.mPastClientMap })

/-- Embeds RDC_ClientMap::RemoveClient (RDC_ClientMap.cpp lines 81-114).
Faithful to two quirks of the source: the PID and bundle-ID erases drop
the whole per-key vector (not just the removed client's pointer), and
the bundle-ID erases on lines 99 and 110 target the member
`mClientMapByBundleID` (the primary-map field) rather than its shadow,
before and after the swap. -/
def RemoveClient (s : RDC_ClientMap) (cid : Nat) :
    Except RDCError RDC_Client × RDC_ClientMap :=
  match s.mClientMapShadow.find cid with
  | none => (.error .invalidClient, s)
  | some c =>
    let s1 := { s with
                mClientMapShadow := s.mClientMapShadow.erase cid
                mClientMapByPIDShadow := s.mClientMapByPIDShadow.erase c.mProcessID
                mClientMapByBundleID :=
                  match c.mBundleID with
                  | some b => s.mClientMapByBundleID.erase b
                  | none => s.mClientMapByBundleID }
    let s2 := SwapInShadowMapsRT s1
    let s3 := { s2 with
                mClientMapShadow := s2.mClientMapShadow.erase cid
                mClientMapByPIDShadow := s2.mClientMapByPIDShadow.erase c.mProcessID
                mClientMapByBundleID :=
                  match c.mBundleID with
                  | some b => s2.mClientMapByBundleID.erase b
                  | none => s2.mClientMapByBundleID }
    (.ok c, s3)

/-- Embeds RDC_ClientMap::UpdateClientIOStateNonRT
(RDC_ClientMap.cpp lines 178-185):
`mClientMapShadow[inClientID].mDoingIO = inDoingIO` (which
value-initialises a fresh RDC_Client when absent), swap, repeat. -/
def UpdateClientIOStateNonRT (s : RDC_ClientMap) (cid : Nat) (flag : Bool) :
    RDC_ClientMap :=
  let upd : Map Nat RDC_Client → Map Nat RDC_Client := fun m =>
    m.insert cid { (m.find cid).getD default with mDoingIOFlag := flag }
  let s1 := { s with mClientMapShadow := upd s.mClientMapShadow }
  let s2 := SwapInShadowMapsRT s1
  { s2 with mClientMapShadow := upd s2.mClientMapShadow }

/-- Embeds RDC_ClientMap::StartIONonRT (RDC_ClientMap.h line 103). -/
def StartIONonRT (s : RDC_ClientMap) (cid : Nat) : RDC_ClientMap :=
  UpdateClientIOStateNonRT s cid true

/-- Embeds RDC_ClientMap::StopIONonRT (RDC_ClientMap.h line 104). -/
def StopIONonRT (s : RDC_ClientMap) (cid : Nat) : RDC_ClientMap :=
  UpdateClientIOStateNonRT s cid false

/-- Embeds RDC_ClientMap::GetClientNonRT (RDC_ClientMap.cpp lines
122-126): looks the client up in the shadow byID map. -/
def GetClientNonRT (s : RDC_ClientMap) (cid : Nat) : Option RDC_Client :=
  s.mClientMapShadow.find cid

/-- Embeds RDC_ClientMap::GetClientRT (RDC_ClientMap.cpp lines 116-120):
looks the client up in the primary byID map. -/
def GetClientRT (s : RDC_ClientMap) (cid : Nat) : Option RDC_Client :=
  s.mClientMap.find cid

/-- The deep-equality invariant of spec §3 (ClientMap, "at rest"):
each primary map agrees pointwise with its shadow.  With maps embedded
extensionally and index vectors embedded as client-ID lists, pointwise
agreement is exactly "identical key sets, equal client values per key,
identical per-key list orders". -/
def SameMaps (s : RDC_ClientMap) : Prop :=
  (∀ k, s.mClientMap k = s.mClientMapShadow k) ∧
  (∀ p, s.mClientMapByPID p = s.mClientMapByPIDShadow p) ∧
  (∀ b, s.mClientMapByBundleID b = s.mClientMapByBundleIDShadow b)

/-- One completed mutator call of the ClientMap, for sequencing claims. -/
inductive Mutator where
  | add (c : RDC_Client)
  | remove (cid : Nat)
  | setIOState (cid : Nat) (flag : Bool)

/-- Runs one mutator to completion (results of `AddClient` /
`RemoveClient`, including thrown exceptions, are discarded; the state the
call leaves behind is kept). -/
def applyMutator (s : RDC_ClientMap) : Mutator → RDC_ClientMap
  | .add c => (AddClient s c).2
  | .remove cid => (RemoveClient s cid).2
  | .setIOState cid flag => UpdateClientIOStateNonRT s cid flag

/-- Runs a sequence of completed mutator calls from a given state. -/
def runMutators (s : RDC_ClientMap) (ops : List Mutator) : RDC_ClientMap :=
  ops.foldl applyMutator s

theorem sameMaps_empty : SameMaps emptyMap := by
  refine ⟨fun k => rfl, fun p => rfl, fun b => rfl⟩

theorem sameMaps_addClient (s : RDC_ClientMap) (c : RDC_Client) (h : SameMaps s) :
    SameMaps (AddClient s c).2 := by
  obtain ⟨h1, h2, h3⟩ := h
  by_cases hc : (s.mClientMapShadow.find c.mClientID).isSome
  · simp only [AddClient, AddClientToShadowMaps, hc, if_true]
    exact ⟨h1, h2, h3⟩
  · have hcF : ((s.mClientMapShadow c.mClientID).isSome = true) = False := by
      simp only [Map.find_def] at hc
      exact eq_false hc
    have hcP : ((s.mClientMap c.mClientID).isSome = true) = False := by
      rw [h1 c.mClientID]
      exact hcF
    simp only [AddClient, AddClientToShadowMaps, SwapInShadowMapsRT, Map.find_def,
      hcF, hcP, if_false]
    refine ⟨?_, ?_, ?_⟩
    · intro k
      simp only [SwapInShadowMapsRT, Map.insert_apply]
      by_cases hk : k = c.mClientID <;> simp [hk, h1]
    · intro p
      simp only [SwapInShadowMapsRT, pushPtr, Map.insert_apply, Map.find_def]
      by_cases hp : p = c.mProcessID <;> simp [hp, h2]
    · intro b
      cases hb : c.mBundleID with
      | none => simpa [SwapInShadowMapsRT, hb] using (h3 b).symm
      | some bid =>
        simp only [SwapInShadowMapsRT, hb, pushPtr, Map.insert_apply, Map.find_def]
        by_cases hbb : b = bid <;> simp [hbb, h3]

theorem sameMaps_removeClient (s : RDC_ClientMap) (cid : Nat) (h : SameMaps s) :
    SameMaps (RemoveClient s cid).2 := by
  obtain ⟨h1, h2, h3⟩ := h
  unfold RemoveClient
  cases hfind : s.mClientMapShadow.find cid with
  | none => exact ⟨h1, h2, h3⟩
  | some c =>
    refine ⟨?_, ?_, ?_⟩
    · intro k
      simp only [SwapInShadowMapsRT, Map.erase_apply]
      by_cases hk : k = cid <;> simp [hk, h1]
    · intro p
      simp only [SwapInShadowMapsRT, Map.erase_apply]
      by_cases hp : p = c.mProcessID <;> simp [hp, h2]
    · intro b
      cases hb : c.mBundleID with
      | none => simpa [SwapInShadowMapsRT, hb] using (h3 b).symm
      | some bid =>
        simp only [SwapInShadowMapsRT, hb, Map.erase_apply]
        by_cases hbb : b = bid <;> simp [hbb, h3 b]

theorem sameMaps_update (s : RDC_ClientMap) (cid : Nat) (flag : Bool) (h : SameMaps s) :
    SameMaps (UpdateClientIOStateNonRT s cid flag) := by
  obtain ⟨h1, h2, h3⟩ := h
  unfold UpdateClientIOStateNonRT
  refine ⟨?_, fun p => (h2 p).symm, fun b => (h3 b).symm⟩
  intro k
  simp only [SwapInShadowMapsRT, Map.insert_apply, Map.find_def]
  by_cases hk : k = cid <;> simp [hk, h1]

theorem sameMaps_applyMutator (s : RDC_ClientMap) (m : Mutator) (h : SameMaps s) :
    SameMaps (applyMutator s m) := by
  cases m with
  | add c => exact sameMaps_addClient s c h
  | remove cid => exact sameMaps_removeClient s cid h
  | setIOState cid flag => exact sameMaps_update s cid flag h

theorem sameMaps_runMutators (ops : List Mutator) (s : RDC_ClientMap) (h : SameMaps s) :
    SameMaps (runMutators s ops) := by
  induction ops generalizing s with
  | nil => exact h
  | cons m rest ih =>
    exact ih (applyMutator s m) (sameMaps_applyMutator s m h)

end RDC_ClientMap

/-- Claim C1: after every completed `ClientMap` mutator call (AddClient,
RemoveClient, or StartIONonRT/StopIONonRT via UpdateClientIOStateNonRT),
each primary map agrees with its shadow counterpart pointwise: identical
key sets, equal client values per key and identical per-key list orders.
Stated for every sequence of completed mutator calls from the freshly
constructed map; instantiating the sequence at each prefix gives the
state after each mutator returns. -/
theorem claim_C1_primary_shadow_deep_equal (ops : List RDC_ClientMap.Mutator) :
    RDC_ClientMap.SameMaps (RDC_ClientMap.runMutators RDC_ClientMap.emptyMap ops) :=
  RDC_ClientMap.sameMaps_runMutators ops RDC_ClientMap.emptyMap RDC_ClientMap.sameMaps_empty

/-- Booleanises an `Except` result (true on `.ok`). -/
def exceptOk {ε α : Type} : Except ε α → Bool
  | .ok _ => true
  | .error _ => false

@[simp] theorem exceptOk_ok {ε α : Type} (a : α) : exceptOk (ε := ε) (.ok a) = true := rfl

@[simp] theorem exceptOk_error {ε α : Type} (e : ε) : exceptOk (α := α) (.error e) = false := rfl

/-- First client of the C2 counterexample scenario: id 1, process 100. -/
def cexClientA : RDC_Client := { mClientID := 1, mProcessID := 100 }

/-- Second client of the C2 counterexample scenario: id 2, same process
100, not yet registered in `cexState0`. -/
def cexClientB : RDC_Client := { mClientID := 2, mProcessID := 100 }

/-- The at-rest state with only `cexClientA` registered. -/
def cexState0 : RDC_ClientMap :=
  (RDC_ClientMap.AddClient RDC_ClientMap.emptyMap cexClientA).2

/-- The state after `AddClient cexClientB` followed by
`RemoveClient 2`, starting from `cexState0`. -/
def cexState2 : RDC_ClientMap :=
  (RDC_ClientMap.RemoveClient (RDC_ClientMap.AddClient cexState0 cexClientB).2 2).2

/-- Claim C2 counterexample: from the at-rest state holding exactly client
1 (process 100), adding the fresh client 2 with the same process ID and
then removing it does NOT return the byPID maps to their prior state:
`RemoveClient` erases the whole per-PID vector, so registered client 1
disappears from the byPID index (the shadow entry for process 100 drops
from `[1]` to absent). -/
theorem claim_C2_counterexample :
    RDC_ClientMap.SameMaps cexState0 ∧
    cexState0.mClientMapShadow.find 2 = none ∧
    cexState0.mClientMapByPIDShadow.find 100 = some [1] ∧
    cexState2.mClientMapByPIDShadow.find 100 = none ∧
    cexState2.mClientMapByPID.find 100 = none := by
  refine ⟨RDC_ClientMap.sameMaps_addClient _ _ RDC_ClientMap.sameMaps_empty, ?_, ?_, ?_, ?_⟩
  · rfl
  · rfl
  · rfl
  · rfl

/-- Claim C2 (amended): from any at-rest state, for a client `c` whose
client ID is absent and such that NO registered client shares `c`'s
process ID (and, when `c` has a valid bundle ID, none shares its bundle
ID), `AddClient c` followed by `RemoveClient c.mClientID` returns every
map, primary and shadow, to its prior state, except that
`mPastClientMap` now holds `c`'s record under its bundle ID (when that
bundle ID is valid).  The no-sharing hypotheses are forced by the
counterexample: `RemoveClient` erases whole per-key index vectors. -/
theorem claim_C2_add_remove_roundtrip (s : RDC_ClientMap) (c : RDC_Client)
    (h : RDC_ClientMap.SameMaps s)
    (habs : s.mClientMapShadow.find c.mClientID = none)
    (hpid : s.mClientMapByPIDShadow.find c.mProcessID = none)
    (hbun : ∀ b, c.mBundleID = some b → s.mClientMapByBundleIDShadow.find b = none) :
    (RDC_ClientMap.RemoveClient (RDC_ClientMap.AddClient s c).2 c.mClientID).2 =
      { s with
        mPastClientMap :=
          match c.mBundleID with
          | some b => s.mPastClientMap.insert b c
          | none => s.mPastClientMap } := by
  obtain ⟨h1, h2, h3⟩ := h
  simp only [Map.find_def] at habs hpid
  have habsP : s.mClientMap c.mClientID = none := (h1 _).trans habs
  have hpidP : s.mClientMapByPID c.mProcessID = none := (h2 _).trans hpid
  have hcF : ((s.mClientMapShadow c.mClientID).isSome = true) = False := by
    simp [habs]
  have hcP : ((s.mClientMap c.mClientID).isSome = true) = False := by
    simp [habsP]
  simp only [RDC_ClientMap.AddClient, RDC_ClientMap.AddClientToShadowMaps,
    RDC_ClientMap.SwapInShadowMapsRT, RDC_ClientMap.RemoveClient, Map.find_def,
    Map.insert_apply, hcF, hcP, if_false, if_true]
  ext
  case mClientMap =>
    funext k
    by_cases hk : k = c.mClientID <;>
      simp [Map.erase_apply, Map.insert_apply, hk, habsP, h1 k]
  case mClientMapShadow =>
    funext k
    by_cases hk : k = c.mClientID <;>
      simp [Map.erase_apply, Map.insert_apply, hk, habs, h1 k]
  case mClientMapByPID =>
    funext p
    by_cases hp : p = c.mProcessID <;>
      simp [pushPtr, Map.erase_apply, Map.insert_apply, Map.find_def, hp, hpidP, h2 p]
  case mClientMapByPIDShadow =>
    funext p
    by_cases hp : p = c.mProcessID <;>
      simp [pushPtr, Map.erase_apply, Map.insert_apply, Map.find_def, hp, hpid, h2 p]
  case mClientMapByBundleID =>
    funext b
    cases hb : c.mBundleID with
    | none => simp [hb]
    | some bid =>
      have hbunS := hbun bid hb
      have hbunP : s.mClientMapByBundleID bid = none := by
        rw [h3 bid]; simpa [Map.find_def] using hbunS
      simp only [Map.find_def] at hbunS
      by_cases hbb : b = bid <;>
        simp [pushPtr, Map.erase_apply, Map.insert_apply, Map.find_def, hb, hbb, hbunS,
          hbunP, (h3 b).symm]
  case mClientMapByBundleIDShadow =>
    funext b
    cases hb : c.mBundleID with
    | none => simp [hb]
    | some bid =>
      have hbunS := hbun bid hb
      have hbunP : s.mClientMapByBundleID bid = none := by
        rw [h3 bid]; simpa [Map.find_def] using hbunS
      simp only [Map.find_def] at hbunS
      by_cases hbb : b = bid <;>
        simp [pushPtr, Map.erase_apply, Map.insert_apply, Map.find_def, hb, hbb, hbunS,
          hbunP, h3 b]
  case mPastClientMap =>
    funext b
    cases hb : c.mBundleID with
    | none => simp [hb]
    | some bid => simp [hb]

/-- The client used in witness scenarios: id 7, process 100, bundle "a". -/
def witClient : RDC_Client := { mClientID := 7, mProcessID := 100, mBundleID := some "a" }

/-- Witness for the amended C2 theorem: from the empty map, adding and
removing client 7 leaves everything empty except the past-clients entry
for bundle "a". -/
theorem claim_C2_add_remove_roundtrip_witness :
    (RDC_ClientMap.RemoveClient
        (RDC_ClientMap.AddClient RDC_ClientMap.emptyMap witClient).2 7).2 =
      { RDC_ClientMap.emptyMap with
        mPastClientMap := Map.insert Map.empty "a" witClient } := by
  have h := claim_C2_add_remove_roundtrip RDC_ClientMap.emptyMap witClient
    RDC_ClientMap.sameMaps_empty rfl rfl (fun b _ => rfl)
  simpa [witClient] using h

/-- Claim C3: `AddClient` fails (with InvalidClient) exactly when the
client ID is already present, `RemoveClient` fails (with InvalidClient)
exactly when the client ID is absent, and in each failing case the whole
state — primary maps, shadow maps and past-clients map — is returned
unchanged.  Stated over any at-rest state. -/
theorem claim_C3_mutator_failure_atomic (s : RDC_ClientMap) (c : RDC_Client) (cid : Nat)
    (h : RDC_ClientMap.SameMaps s) :
    (exceptOk (RDC_ClientMap.AddClient s c).1 = false ↔
        (s.mClientMapShadow.find c.mClientID).isSome) ∧
    ((s.mClientMapShadow.find c.mClientID).isSome →
        RDC_ClientMap.AddClient s c = (.error .invalidClient, s)) ∧
    (exceptOk (RDC_ClientMap.RemoveClient s cid).1 = false ↔
        s.mClientMapShadow.find cid = none) ∧
    (s.mClientMapShadow.find cid = none →
        RDC_ClientMap.RemoveClient s cid = (.error .invalidClient, s)) := by
  obtain ⟨h1, h2, h3⟩ := h
  constructor
  · by_cases hc : (s.mClientMapShadow.find c.mClientID).isSome
    · simp only [RDC_ClientMap.AddClient, RDC_ClientMap.AddClientToShadowMaps, hc, if_true]
      simp [hc]
    · have hcF : ((s.mClientMapShadow c.mClientID).isSome = true) = False := by
        simp only [Map.find_def] at hc
        exact eq_false hc
      have hcP : ((s.mClientMap c.mClientID).isSome = true) = False := by
        rw [h1 c.mClientID]; exact hcF
      simp only [RDC_ClientMap.AddClient, RDC_ClientMap.AddClientToShadowMaps,
        RDC_ClientMap.SwapInShadowMapsRT, Map.find_def, hcF, hcP, if_false]
      simp [Map.find_def, hc]
  constructor
  · intro hc
    simp only [RDC_ClientMap.AddClient, RDC_ClientMap.AddClientToShadowMaps, hc, if_true]
  constructor
  · cases hfind : s.mClientMapShadow.find cid with
    | none =>
      simp only [Map.find_def] at hfind
      simp [RDC_ClientMap.RemoveClient, Map.find_def, hfind]
    | some cl =>
      simp only [Map.find_def] at hfind
      simp [RDC_ClientMap.RemoveClient, Map.find_def, hfind]
  · intro hfind
    simp only [Map.find_def] at hfind
    simp [RDC_ClientMap.RemoveClient, Map.find_def, hfind]

/-- Witness for C3: on the empty map, removing the absent client 5 fails
with InvalidClient and leaves the state untouched, and adding a client
does not fail. -/
theorem claim_C3_mutator_failure_atomic_witness :
    RDC_ClientMap.RemoveClient RDC_ClientMap.emptyMap 5 =
      (.error .invalidClient, RDC_ClientMap.emptyMap) ∧
    exceptOk (RDC_ClientMap.AddClient RDC_ClientMap.emptyMap witClient).1 = true := by
  have h := claim_C3_mutator_failure_atomic RDC_ClientMap.emptyMap witClient 5
    RDC_ClientMap.sameMaps_empty
  constructor
  · exact h.2.2.2 rfl
  · have hiff := h.1
    cases hok : exceptOk (RDC_ClientMap.AddClient RDC_ClientMap.emptyMap witClient).1 with
    | true => rfl
    | false => exact absurd (hiff.mp hok) (by simp [RDC_ClientMap.emptyMap])

/-- The client record that `std::map::operator[]` value-initialisation
produces, with `mDoingIO` then set to the given flag: all scalar fields
zero, `mIsNativeEndian` true, invalid bundle ID. -/
def defaultClientWith (flag : Bool) : RDC_Client :=
  { (default : RDC_Client) with mDoingIOFlag := flag }

/-- Claim C9: for a client ID that is absent from an at-rest map,
`ClientMap::StartIONonRT` and `ClientMap::StopIONonRT` do not fail with
InvalidClient (their embedding is total, as `UpdateClientIOStateNonRT`
uses `operator[]`): they silently insert a value-initialised client
record, with `mDoingIO` taken from the argument and every other field
default, under that key into BOTH the primary and the shadow byID maps,
and leave the byPID and byBundleID indices (and past clients) unchanged. -/
theorem claim_C9_updateIOState_inserts_default (s : RDC_ClientMap) (cid : Nat)
    (h : RDC_ClientMap.SameMaps s)
    (habs : s.mClientMapShadow.find cid = none) :
    RDC_ClientMap.StartIONonRT s cid =
      { s with
        mClientMap := s.mClientMap.insert cid (defaultClientWith true)
        mClientMapShadow := s.mClientMapShadow.insert cid (defaultClientWith true) } ∧
    RDC_ClientMap.StopIONonRT s cid =
      { s with
        mClientMap := s.mClientMap.insert cid (defaultClientWith false)
        mClientMapShadow := s.mClientMapShadow.insert cid (defaultClientWith false) } := by
  obtain ⟨h1, h2, h3⟩ := h
  simp only [Map.find_def] at habs
  have habsP : s.mClientMap cid = none := (h1 _).trans habs
  constructor <;>
  · refine RDC_ClientMap.ext ?_ ?_ ?_ ?_ ?_ ?_ rfl <;>
      simp only [RDC_ClientMap.StartIONonRT, RDC_ClientMap.StopIONonRT,
        RDC_ClientMap.UpdateClientIOStateNonRT, RDC_ClientMap.SwapInShadowMapsRT,
        Map.find_def, Map.insert_apply, habs, habsP]
    · funext k
      by_cases hk : k = cid <;> simp [hk, habs, habsP, h1 k, defaultClientWith]
    · funext k
      by_cases hk : k = cid <;> simp [hk, habs, habsP, h1 k, defaultClientWith]
    · funext p
      exact (h2 p).symm
    · funext p
      exact h2 p
    · funext b
      exact (h3 b).symm
    · funext b
      exact h3 b

/-- Witness for C9: starting client 3 on the empty map inserts the
default record with `mDoingIO = true` into both byID maps. -/
theorem claim_C9_updateIOState_inserts_default_witness :
    RDC_ClientMap.StartIONonRT RDC_ClientMap.emptyMap 3 =
      { RDC_ClientMap.emptyMap with
        mClientMap := Map.insert Map.empty 3 (defaultClientWith true)
        mClientMapShadow := Map.insert Map.empty 3 (defaultClientWith true) } :=
  (claim_C9_updateIOState_inserts_default RDC_ClientMap.emptyMap 3
    RDC_ClientMap.sameMaps_empty rfl).1

/-- Looking up a client after `UpdateClientIOStateNonRT` on a present
client: the stored record now carries the requested IO flag. -/
theorem getClientNonRT_update (s : RDC_ClientMap) (cid : Nat) (c : RDC_Client) (flag : Bool)
    (h : RDC_ClientMap.SameMaps s)
    (hfind : RDC_ClientMap.GetClientNonRT s cid = some c) :
    RDC_ClientMap.GetClientNonRT (RDC_ClientMap.UpdateClientIOStateNonRT s cid flag) cid =
      some { c with mDoingIOFlag := flag } := by
  obtain ⟨h1, _, _⟩ := h
  simp only [RDC_ClientMap.GetClientNonRT, Map.find_def] at hfind ⊢
  simp [RDC_ClientMap.UpdateClientIOStateNonRT, RDC_ClientMap.SwapInShadowMapsRT,
    Map.insert_apply, Map.find_def, h1 cid, hfind]

/-- The largest value of a `UInt64`, as used by the guard in
RDC_Clients::StartIONonRT (RDC_Clients.cpp line 79). -/
def UINT64_MAX : Nat := 2 ^ 64 - 1

/-- Embeds the state of RDC_Clients
(src/RDCAudio/DeviceClients/RDC_Clients.h): the wrapped client map and
the `UInt64` count of clients currently doing IO. -/
structure RDC_Clients where
  mClientMap : RDC_ClientMap
  mStartCount : Nat

namespace RDC_Clients

/-- Embeds RDC_Clients::StartIONonRT (RDC_Clients.cpp lines 63-98):
throw InvalidClient if the client is absent; if it is not doing IO,
throw IllegalOperation when the ref count is maxed out, otherwise mark
the client as doing IO in the map and increment the count; return true
exactly when the count became 1. -/
def StartIONonRT (s : RDC_Clients) (cid : Nat) : Except RDCError Bool × RDC_Clients :=
  match RDC_ClientMap.GetClientNonRT s.mClientMap cid with
  | none => (.error .invalidClient, s)
  | some c =>
    if c.mDoingIOFlag = false then
      if s.mStartCount = UINT64_MAX then
        (.error .illegalOperation, s)
      else
        let m := RDC_ClientMap.StartIONonRT s.mClientMap cid
        let n := s.mStartCount + 1
        (.ok (decide (n = 1)), { mClientMap := m, mStartCount := n })
    else
      (.ok false, s)

/-- Embeds RDC_Clients::StopIONonRT (RDC_Clients.cpp lines 100-134):
throw InvalidClient if the client is absent; if it is doing IO, mark it
as not doing IO in the map, then throw IllegalOperation on ref-count
underflow (note the map mutation precedes the underflow check in the
source), otherwise decrement; return true exactly when the count became
0. -/
def StopIONonRT (s : RDC_Clients) (cid : Nat) : Except RDCError Bool × RDC_Clients :=
  match RDC_ClientMap.GetClientNonRT s.mClientMap cid with
  | none => (.error .invalidClient, s)
  | some c =>
    if c.mDoingIOFlag = true then
      let m := RDC_ClientMap.StopIONonRT s.mClientMap cid
      if s.mStartCount = 0 then
        (.error .illegalOperation, { mClientMap := m, mStartCount := s.mStartCount })
      else
        let n := s.mStartCount - 1
        (.ok (decide (n = 0)), { mClientMap := m, mStartCount := n })
    else
      (.ok false, s)

end RDC_Clients

/-- Claim C4: for the Clients layer over an at-rest map,
`StartIONonRT` fails when the client is absent; when the client is
present and not doing IO (and the ref count is not at the `UInt64`
maximum, the edge case of C10) it marks the client as doing IO,
increments `startCount`, and returns true exactly when the count
transitioned from 0 to 1; a client already doing IO yields false with
nothing changed.  Symmetrically `StopIONonRT` fails when the client is
absent; when present and doing IO (count nonzero, the spec's underflow
caveat) it clears the flag, decrements, and returns true exactly when
the count transitioned to 0; a client not doing IO yields false with
nothing changed. -/
theorem claim_C4_clients_start_stop (s : RDC_Clients) (cid : Nat)
    (h : RDC_ClientMap.SameMaps s.mClientMap) :
    (RDC_ClientMap.GetClientNonRT s.mClientMap cid = none →
      RDC_Clients.StartIONonRT s cid = (.error .invalidClient, s) ∧
      RDC_Clients.StopIONonRT s cid = (.error .invalidClient, s)) ∧
    (∀ c, RDC_ClientMap.GetClientNonRT s.mClientMap cid = some c →
      c.mDoingIOFlag = false → s.mStartCount ≠ UINT64_MAX →
      (RDC_Clients.StartIONonRT s cid).1 = .ok (decide (s.mStartCount = 0)) ∧
      (RDC_Clients.StartIONonRT s cid).2.mStartCount = s.mStartCount + 1 ∧
      RDC_ClientMap.GetClientNonRT (RDC_Clients.StartIONonRT s cid).2.mClientMap cid =
        some { c with mDoingIOFlag := true }) ∧
    (∀ c, RDC_ClientMap.GetClientNonRT s.mClientMap cid = some c →
      c.mDoingIOFlag = true →
      RDC_Clients.StartIONonRT s cid = (.ok false, s)) ∧
    (∀ c, RDC_ClientMap.GetClientNonRT s.mClientMap cid = some c →
      c.mDoingIOFlag = true → s.mStartCount ≠ 0 →
      (RDC_Clients.StopIONonRT s cid).1 = .ok (decide (s.mStartCount - 1 = 0)) ∧
      (RDC_Clients.StopIONonRT s cid).2.mStartCount = s.mStartCount - 1 ∧
      RDC_ClientMap.GetClientNonRT (RDC_Clients.StopIONonRT s cid).2.mClientMap cid =
        some { c with mDoingIOFlag := false }) ∧
    (∀ c, RDC_ClientMap.GetClientNonRT s.mClientMap cid = some c →
      c.mDoingIOFlag = false →
      RDC_Clients.StopIONonRT s cid = (.ok false, s)) := by
  refine ⟨?_, ?_, ?_, ?_, ?_⟩
  · intro hget
    constructor <;> simp [RDC_Clients.StartIONonRT, RDC_Clients.StopIONonRT, hget]
  · intro c hget hflag hmax
    have hupd := getClientNonRT_update s.mClientMap cid c true h hget
    refine ⟨?_, ?_, ?_⟩ <;>
      simp [RDC_Clients.StartIONonRT, RDC_ClientMap.StartIONonRT, hget, hflag, hmax, hupd,
        decide_eq_decide]
  · intro c hget hflag
    simp [RDC_Clients.StartIONonRT, hget, hflag]
  · intro c hget hflag hzero
    have hupd := getClientNonRT_update s.mClientMap cid c false h hget
    refine ⟨?_, ?_, ?_⟩ <;>
      simp [RDC_Clients.StopIONonRT, RDC_ClientMap.StopIONonRT, hget, hflag, hzero, hupd]
  · intro c hget hflag
    simp [RDC_Clients.StopIONonRT, hget, hflag]

/-- A Clients state with exactly client 7 registered and nobody doing
IO. -/
def witClients : RDC_Clients :=
  { mClientMap := (RDC_ClientMap.AddClient RDC_ClientMap.emptyMap witClient).2
    mStartCount := 0 }

/-- Witness for C4: starting IO for registered client 7 when nobody is
running returns true (the 0-to-1 transition) and bumps the count to 1. -/
theorem claim_C4_clients_start_stop_witness :
    (RDC_Clients.StartIONonRT witClients 7).1 = .ok true ∧
    (RDC_Clients.StartIONonRT witClients 7).2.mStartCount = 1 := by
  have h := (claim_C4_clients_start_stop witClients 7
      (RDC_ClientMap.sameMaps_addClient _ _ RDC_ClientMap.sameMaps_empty)).2.1
      witClient rfl rfl (by decide)
  exact ⟨by simpa using h.1, h.2.1⟩

/-- Claim C10: `Clients::StartIONonRT` never overflows the IO reference
count: when `startCount` is at `UINT64_MAX` and a client that is not yet
doing IO tries to start, the call fails with IllegalOperation before
either `startCount` or the client's doingIO flag is modified (the state
is returned exactly as it was); and from any state whose count is at
most `UINT64_MAX`, the count after a start is still at most
`UINT64_MAX`, so the `UInt64` never wraps to 0. -/
theorem claim_C10_no_refcount_overflow (s : RDC_Clients) (cid : Nat) (c : RDC_Client)
    (hget : RDC_ClientMap.GetClientNonRT s.mClientMap cid = some c)
    (hflag : c.mDoingIOFlag = false)
    (hmax : s.mStartCount = UINT64_MAX) :
    RDC_Clients.StartIONonRT s cid = (.error .illegalOperation, s) ∧
    (∀ t cid2, (t : RDC_Clients).mStartCount ≤ UINT64_MAX →
        (RDC_Clients.StartIONonRT t cid2).2.mStartCount ≤ UINT64_MAX) := by
  constructor
  · simp [RDC_Clients.StartIONonRT, hget, hflag, hmax]
  · intro t cid2 hb
    cases hg : RDC_ClientMap.GetClientNonRT t.mClientMap cid2 with
    | none => simpa [RDC_Clients.StartIONonRT, hg] using hb
    | some c2 =>
      by_cases hf : c2.mDoingIOFlag = false
      · by_cases hm : t.mStartCount = UINT64_MAX
        · simp [RDC_Clients.StartIONonRT, hg, hf, hm]
        · have : t.mStartCount + 1 ≤ UINT64_MAX := by omega
          simpa [RDC_Clients.StartIONonRT, hg, hf, hm] using this
      · simpa [RDC_Clients.StartIONonRT, hg, hf] using hb

/-- A Clients state with client 7 registered and the ref count maxed. -/
def witClientsMax : RDC_Clients :=
  { mClientMap := (RDC_ClientMap.AddClient RDC_ClientMap.emptyMap witClient).2
    mStartCount := UINT64_MAX }

/-- Witness for C10: at the maxed ref count, starting registered client
7 fails with IllegalOperation and changes nothing. -/
theorem claim_C10_no_refcount_overflow_witness :
    RDC_Clients.StartIONonRT witClientsMax 7 = (.error .illegalOperation, witClientsMax) :=
  (claim_C10_no_refcount_overflow witClientsMax 7 witClient rfl rfl rfl).1

/-- CARingBuffer result code kCARingBufferError_OK (CARingBuffer.h). -/
def kCARingBufferError_OK : Int := 0

/-- CARingBuffer result code kCARingBufferError_TooMuch (CARingBuffer.h). -/
def kCARingBufferError_TooMuch : Int := 3

/-- CARingBuffer result code kCARingBufferError_CPUOverload (CARingBuffer.h). -/
def kCARingBufferError_CPUOverload : Int := 4

/-- Embeds RDC_Device::ReadInputData (RDC_Device.cpp lines 1130-1167),
parameterised by the `CARingBufferError` the Fetch call reported and by
the frame words Fetch left in the output buffer.  The returned pair is
the outcome of the operation and the final contents of the output
buffer (a frame per word): CPUOverload zero-fills the whole buffer and
succeeds; TooMuch zero-fills and throws IllegalOperation; OK keeps the
fetched data; anything else throws Unspecified without touching the
buffer. -/
def RDC_Device.ReadInputData (fetchResult : Int) (fetched : List Nat) (frameCount : Nat) :
    Except RDCError Unit × List Nat :=
  if fetchResult = kCARingBufferError_CPUOverload then
    (.ok (), List.replicate frameCount 0)
  else if fetchResult = kCARingBufferError_TooMuch then
    (.error .illegalOperation, List.replicate frameCount 0)
  else if fetchResult = kCARingBufferError_OK then
    (.ok (), fetched)
  else
    (.error .unspecified, fetched)

/-- Embeds RDC_Device::WriteOutputData (RDC_Device.cpp lines 1169-1195),
parameterised by the `CARingBufferError` the Store call reported: any
result other than OK or CPUOverload throws `CAException(err)` with the
raw ring-buffer code. -/
def RDC_Device.WriteOutputData (storeResult : Int) : Except RDCError Unit :=
  if storeResult ≠ kCARingBufferError_OK ∧ storeResult ≠ kCARingBufferError_CPUOverload then
    .error (.ringBufferCode storeResult)
  else
    .ok ()

/-- Claim C5: in ReadInput, a Fetch CPUOverload zero-fills the whole
output buffer and the operation succeeds; a Fetch TooMuch zero-fills
and fails with IllegalOperation; any other non-OK Fetch result fails
with Unspecified.  In WriteMix, a Store CPUOverload is ignored (the
cycle succeeds) while any other non-OK Store result fails the cycle. -/
theorem claim_C5_iocycle_error_mapping (e : Int) (fetched : List Nat) (n : Nat)
    (hne0 : e ≠ kCARingBufferError_OK) (hne3 : e ≠ kCARingBufferError_TooMuch)
    (hne4 : e ≠ kCARingBufferError_CPUOverload) :
    RDC_Device.ReadInputData kCARingBufferError_CPUOverload fetched n =
      (.ok (), List.replicate n 0) ∧
    RDC_Device.ReadInputData kCARingBufferError_TooMuch fetched n =
      (.error .illegalOperation, List.replicate n 0) ∧
    RDC_Device.ReadInputData e fetched n = (.error .unspecified, fetched) ∧
    RDC_Device.WriteOutputData kCARingBufferError_CPUOverload = .ok () ∧
    RDC_Device.WriteOutputData kCARingBufferError_OK = .ok () ∧
    RDC_Device.WriteOutputData e = .error (.ringBufferCode e) ∧
    RDC_Device.WriteOutputData kCARingBufferError_TooMuch =
      .error (.ringBufferCode kCARingBufferError_TooMuch) := by
  refine ⟨rfl, rfl, ?_, rfl, rfl, ?_, rfl⟩
  · simp [RDC_Device.ReadInputData, hne0, hne3, hne4]
  · simp [RDC_Device.WriteOutputData, hne0, hne4]

/-- Witness for C5 at the unknown result code 5: ReadInput fails with
Unspecified leaving the fetched words, WriteMix fails with the raw
code. -/
theorem claim_C5_iocycle_error_mapping_witness :
    RDC_Device.ReadInputData 5 [9, 9] 2 = (.error .unspecified, [9, 9]) ∧
    RDC_Device.WriteOutputData 5 = .error (.ringBufferCode 5) := by
  have h := claim_C5_iocycle_error_mapping 5 [9, 9] 2
    (by decide) (by decide) (by decide)
  exact ⟨h.2.2.1, h.2.2.2.2.2.1⟩

/-- Modelled from the spec: the CARingBuffer state (spec §3 and §4.1).
CARingBuffer.cpp is not part of the source tree (only CARingBuffer.h
is), so the buffer is modelled from the specification.  The backing
storage holds one opaque machine word per frame slot (bit-exact frame
contents), indexed by `frameTime mod capacityFrames`; `startTime` and
`endTime` are the current time bounds.  The SeqLock publication ring is
a concurrency mechanism; in this sequential embedding reads of the
bounds always succeed (the CPUOverload path is the concurrent one). -/
structure CARingBuffer where
  capacityFrames : Nat
  buf : Nat → Nat
  startTime : Int
  endTime : Int

/-- Modelled from the spec: the Store error outcomes of spec §4.1
(CARingBuffer.cpp is not in the tree). -/
inductive RingErr where
  | tooMuch
  | cpuOverload
  deriving DecidableEq, Repr

namespace CARingBuffer

/-- Modelled from the spec: step 5 of the Store algorithm
(CARingBuffer.cpp is not in the tree) — copy the frames into backing
storage starting at offset `frameNumber mod capacityFrames`, wrapping. -/
def writeFrames (cap : Nat) : (Nat → Nat) → Int → List Nat → (Nat → Nat)
  | b, _, [] => b
  | b, t, f :: rest =>
    writeFrames cap (fun i => if i = (t % (cap : Int)).toNat then f else b i) (t + 1) rest

/-- Modelled from the spec: the zero-fill of step 3 of the Store
algorithm (CARingBuffer.cpp is not in the tree) — write `len` zero
frames starting at time `a`, wrapping. -/
def zeroRange (cap : Nat) : (Nat → Nat) → Int → Nat → (Nat → Nat)
  | b, _, 0 => b
  | b, a, len + 1 =>
    zeroRange cap (fun i => if i = (a % (cap : Int)).toNat then 0 else b i) (a + 1) len

/-- Modelled from the spec: the Store algorithm of spec §4.1
(CARingBuffer.cpp is not in the tree).  Fail TooMuch when the count
exceeds the capacity; when the write starts past the current end,
either treat the buffer as empty (gap larger than the capacity) or
zero-fill the gap; copy the frames wrapping; publish
`newEnd = max(endWrite, curEnd)` and
`newStart = max(newEnd - capacityFrames, curStart, startWrite)`. -/
def Store (s : CARingBuffer) (frames : List Nat) (t : Int) : Except RingErr CARingBuffer :=
  if frames.length > s.capacityFrames then .error .tooMuch
  else
    let endWrite := t + (frames.length : Int)
    let step3 : (Nat → Nat) × Int × Int :=
      if t > s.endTime then
        if t - s.endTime > (s.capacityFrames : Int) then
          (s.buf, t, t)
        else
          (zeroRange s.capacityFrames s.buf s.endTime (t - s.endTime).toNat,
            s.startTime, s.endTime)
      else
        (s.buf, s.startTime, s.endTime)
    let b3 := writeFrames s.capacityFrames step3.1 t frames
    let newEnd := max endWrite step3.2.2
    let newStart := max (newEnd - (s.capacityFrames : Int)) (max step3.2.1 t)
    .ok { s with buf := b3, startTime := newStart, endTime := newEnd }

/-- Modelled from the spec: the Fetch algorithm of spec §4.1
(CARingBuffer.cpp is not in the tree).  The requested range is clipped
to the current bounds; frames outside the bounds are zero-filled, the
overlap is copied from backing storage (wrapping).  In this sequential
embedding the bounds read always succeeds, so Fetch returns the output
buffer. -/
def Fetch (s : CARingBuffer) (n : Nat) (t : Int) : List Nat :=
  (List.range n).map fun (j : Nat) =>
    if t + (j : Int) < s.startTime ∨ s.endTime ≤ t + (j : Int) then 0
    else s.buf (((t + (j : Int)) % (s.capacityFrames : Int)).toNat)

/-- Two frame times less than one capacity apart never share a slot. -/
theorem emod_toNat_ne (cap : Nat) (t : Int) (d : Nat)
    (hd1 : 0 < d) (hd2 : (d : Int) < (cap : Int)) :
    ((t + (d : Int)) % (cap : Int)).toNat ≠ (t % (cap : Int)).toNat := by
  intro heq
  have hcap : (cap : Int) ≠ 0 := by omega
  have h1 : 0 ≤ (t + (d : Int)) % (cap : Int) := Int.emod_nonneg _ hcap
  have h2 : 0 ≤ t % (cap : Int) := Int.emod_nonneg _ hcap
  have hmods : (t + (d : Int)) % (cap : Int) = t % (cap : Int) := by omega
  have hdz : (d : Int) % (cap : Int) = 0 := by
    have hsub := Int.sub_emod (t + (d : Int)) t (cap : Int)
    rw [hmods, sub_self, Int.zero_emod, add_sub_cancel_left] at hsub
    exact hsub
  have hdvd : (cap : Int) ∣ (d : Int) := Int.dvd_of_emod_eq_zero hdz
  have := Int.le_of_dvd (by omega) hdvd
  omega

/-- Slots not written by `writeFrames` keep their old contents. -/
theorem writeFrames_untouched (cap : Nat) (frames : List Nat) :
    ∀ (b : Nat → Nat) (t : Int) (i : Nat),
      (∀ k : Nat, k < frames.length → ((t + (k : Int)) % (cap : Int)).toNat ≠ i) →
      writeFrames cap b t frames i = b i := by
  induction frames with
  | nil => intro b t i _; rfl
  | cons f rest ih =>
    intro b t i hout
    have hrest : ∀ k : Nat, k < rest.length →
        ((t + 1 + (k : Int)) % (cap : Int)).toNat ≠ i := by
      intro k hk
      have := hout (k + 1) (by simpa using Nat.succ_lt_succ hk)
      have harith : t + ((k + 1 : Nat) : Int) = t + 1 + (k : Int) := by push_cast; ring
      rwa [harith] at this
    have h0 : (t % (cap : Int)).toNat ≠ i := by
      have := hout 0 (by simp)
      simpa using this
    unfold writeFrames
    rw [ih _ (t + 1) i hrest]
    simp [h0.symm]

/-- The slot written for frame `j` of a `writeFrames` run holds frame
`j`, provided the run fits within one capacity. -/
theorem writeFrames_get (cap : Nat) (frames : List Nat) :
    ∀ (b : Nat → Nat) (t : Int) (j : Nat) (hj : j < frames.length),
      frames.length ≤ cap →
      writeFrames cap b t frames (((t + (j : Int)) % (cap : Int)).toNat) =
        frames.get ⟨j, hj⟩ := by
  induction frames with
  | nil => intro b t j hj _; exact absurd hj (by simp)
  | cons f rest ih =>
    intro b t j hj hlen
    match j with
    | 0 =>
      unfold writeFrames
      simp only [Nat.cast_zero, add_zero]
      have hout : ∀ k : Nat, k < rest.length →
          ((t + 1 + (k : Int)) % (cap : Int)).toNat ≠ (t % (cap : Int)).toNat := by
        intro k hk
        have harith : t + 1 + (k : Int) = t + ((k + 1 : Nat) : Int) := by
          push_cast; ring
        rw [harith]
        refine emod_toNat_ne cap t (k + 1) (by omega) ?_
        have hrl : rest.length + 1 ≤ cap := by simpa using hlen
        push_cast
        omega
      rw [writeFrames_untouched cap rest _ (t + 1) _ hout]
      simp
    | j' + 1 =>
      unfold writeFrames
      have harith : t + ((j' + 1 : Nat) : Int) = (t + 1) + (j' : Int) := by push_cast; ring
      rw [harith]
      have hj' : j' < rest.length := by simpa using Nat.lt_of_succ_lt_succ hj
      rw [ih _ (t + 1) j' hj' (by simpa using Nat.le_of_succ_le hlen)]
      simp

end CARingBuffer

/-- Fetching over a freshly written range reads back exactly the written
frames when the published bounds cover the range. -/
theorem fetch_writeFrames (cap : Nat) (b : Nat → Nat) (frames : List Nat) (t st en : Int)
    (hn : frames.length ≤ cap)
    (hst : st ≤ t) (hen : t + (frames.length : Int) ≤ en) :
    CARingBuffer.Fetch
      { capacityFrames := cap
        buf := CARingBuffer.writeFrames cap b t frames
        startTime := st
        endTime := en } frames.length t = frames := by
  apply List.ext_getElem
  · simp [CARingBuffer.Fetch]
  · intro j h1 h2
    simp only [CARingBuffer.Fetch, List.getElem_map, List.getElem_range]
    have hj : j < frames.length := h2
    rw [if_neg (by omega)]
    have hw := CARingBuffer.writeFrames_get cap frames b t j hj hn
    simpa using hw

/-- The bounds published by a forward Store cover the written range. -/
theorem store_bounds (cap len : Nat) (t cs2 ce2 : Int)
    (hlen : len ≤ cap) (hcs2 : cs2 ≤ t) (hce2 : ce2 ≤ t) :
    max (max (t + (len : Int)) ce2 - (cap : Int)) (max cs2 t) ≤ t ∧
    t + (len : Int) ≤ max (t + (len : Int)) ce2 := by
  constructor
  · apply max_le
    · have h1 : max (t + (len : Int)) ce2 ≤ t + (cap : Int) :=
        max_le (by omega) (by omega)
      omega
    · exact max_le hcs2 le_rfl
  · exact le_max_left _ _

/-- Claim C6: for every frame array, every count `n ≤ capacityFrames`
and every sample time `t` at or past the buffer's current end (the
documented contract: storing before the previous frame number is
undefined), `Store(frames, n, t)` succeeds and an immediately following
`Fetch(out, n, t)` with no intervening store returns exactly the stored
frames, bit for bit. -/
theorem claim_C6_store_fetch_roundtrip (s : CARingBuffer) (frames : List Nat) (t : Int)
    (_hcap : 0 < s.capacityFrames)
    (hinv : s.startTime ≤ s.endTime)
    (hseq : s.endTime ≤ t)
    (hn : frames.length ≤ s.capacityFrames) :
    Except.map (fun s2 => CARingBuffer.Fetch s2 frames.length t)
      (CARingBuffer.Store s frames t) = .ok frames := by
  have hno : ¬ (frames.length > s.capacityFrames) := by omega
  by_cases hgt : t > s.endTime
  · by_cases hfar : t - s.endTime > (s.capacityFrames : Int)
    · simp only [CARingBuffer.Store, if_neg hno, if_pos hgt, if_pos hfar, Except.map]
      obtain ⟨hst, hen⟩ := store_bounds s.capacityFrames frames.length t t t hn le_rfl le_rfl
      rw [fetch_writeFrames s.capacityFrames s.buf frames t _ _ hn hst hen]
    · simp only [CARingBuffer.Store, if_neg hno, if_pos hgt, if_neg hfar, Except.map]
      obtain ⟨hst, hen⟩ := store_bounds s.capacityFrames frames.length t s.startTime s.endTime
        hn (le_trans hinv hseq) hseq
      rw [fetch_writeFrames s.capacityFrames _ frames t _ _ hn hst hen]
  · simp only [CARingBuffer.Store, if_neg hno, if_neg hgt, Except.map]
    obtain ⟨hst, hen⟩ := store_bounds s.capacityFrames frames.length t s.startTime s.endTime
      hn (le_trans hinv hseq) hseq
    rw [fetch_writeFrames s.capacityFrames s.buf frames t _ _ hn hst hen]

/-- An initial ring buffer of capacity 8, all slots zero, bounds (0,0),
as after Allocate in end-to-end scenario 1 of spec §8. -/
def witRing : CARingBuffer :=
  { capacityFrames := 8, buf := fun _ => 0, startTime := 0, endTime := 0 }

/-- Witness for C6: storing the two frames [1, 2] at time 0 into the
fresh capacity-8 ring and fetching two frames at time 0 returns
exactly [1, 2]. -/
theorem claim_C6_store_fetch_roundtrip_witness :
    Except.map (fun s2 => CARingBuffer.Fetch s2 2 0)
      (CARingBuffer.Store witRing [1, 2] 0) = .ok [1, 2] := by
  have h := claim_C6_store_fetch_roundtrip witRing [1, 2] 0
    (by decide) (by decide) (by decide) (by decide)
  simpa using h

/-- Modelled from the spec: the constant kLoopbackRingBufferFrameSize is
declared in RDC_Device.h, which is not in the tree; spec §6 gives the
suggested power-of-two value 16384 frames. -/
def kLoopbackRingBufferFrameSize : Nat := 16384

/-- Embeds the loopback clock state (the mLoopbackTime fields used by
RDC_Device::GetZeroTimeStamp and reset by RDC_Device::_HW_StartIO,
RDC_Device.cpp lines 965-1001 and 1436-1451).  `Float64` quantities are
embedded as exact rationals; `numberTimeStamps` and `anchorHostTime` are
`UInt64`. -/
structure RDC_LoopbackTime where
  numberTimeStamps : Nat
  anchorHostTime : Nat
  hostTicksPerFrame : ℚ

/-- The triple a GetZeroTimeStamp call returns: `outSampleTime` (a
`Float64`, embedded exactly), `outHostTime` and `outSeed` (`UInt64`). -/
structure ZeroTimeStamp where
  sampleTime : ℚ
  hostTime : Nat
  seed : Nat

/-- Embeds RDC_Device::_HW_StartIO (RDC_Device.cpp lines 1436-1451):
reset `numberTimeStamps` to 0 and anchor the clock at the current host
time.  (`hostTicksPerFrame` was set by InitLoopback.) -/
def RDC_Device.HW_StartIOReset (tpf : ℚ) (now0 : Nat) : RDC_LoopbackTime :=
  { numberTimeStamps := 0, anchorHostTime := now0, hostTicksPerFrame := tpf }

/-- Embeds RDC_Device::GetZeroTimeStamp (RDC_Device.cpp lines 965-1001),
loopback branch (no wrapped engine).  The two `static_cast<UInt64>` of
nonnegative `Float64` values truncate toward zero, embedded as
`Int.toNat` of the rational floor, reduced mod 2^64 as `UInt64`
arithmetic demands.  Note the code adds `anchorHostTime` to the
TRUNCATED tick offset when computing `theNextHostTime`, and truncates
the `Float64` sum when computing `outHostTime`. -/
def RDC_Device.GetZeroTimeStamp (lt : RDC_LoopbackTime) (now : Nat) :
    RDC_LoopbackTime × ZeroTimeStamp :=
  let theHostTicksPerRingBuffer : ℚ :=
    lt.hostTicksPerFrame * (kLoopbackRingBufferFrameSize : ℚ)
  let theHostTickOffset : ℚ := ((lt.numberTimeStamps : ℚ) + 1) * theHostTicksPerRingBuffer
  let theNextHostTime : Nat :=
    (lt.anchorHostTime + (Int.floor theHostTickOffset).toNat) % 2 ^ 64
  let lt2 :=
    if theNextHostTime ≤ now then
      { lt with numberTimeStamps := lt.numberTimeStamps + 1 }
    else lt
  (lt2,
    { sampleTime := (lt2.numberTimeStamps : ℚ) * (kLoopbackRingBufferFrameSize : ℚ)
      hostTime :=
        (Int.floor ((lt2.anchorHostTime : ℚ) +
          (lt2.numberTimeStamps : ℚ) * theHostTicksPerRingBuffer)).toNat % 2 ^ 64
      seed := 1 })

/-- The loopback state of the C7 counterexample: a fresh IO session
(anchor 0, count 0) whose host-ticks-per-frame is the dyadic rational
3/32768, so one ring buffer of frames is exactly 1.5 host ticks.  All
the Float64 operations GetZeroTimeStamp performs on these values are
exact in IEEE arithmetic, so the rational embedding and the machine
agree here. -/
def cexLoopback : RDC_LoopbackTime :=
  { numberTimeStamps := 0, anchorHostTime := 0, hostTicksPerFrame := 3 / 32768 }

/-- Claim C7 counterexample: at host time 1 the code increments the
timestamp count (the TRUNCATED next host time 0 + trunc(1.5) = 1 is ≤
1), although the claim's exact condition anchorHost + (tsCount+1) ×
ticksPerFrame × framesPerRing ≤ now reads 1.5 ≤ 1 and is false; the
returned hostTime is the truncated 1, not the claim's exact 1.5. -/
theorem claim_C7_counterexample :
    (RDC_Device.GetZeroTimeStamp cexLoopback 1).1.numberTimeStamps = 1 ∧
    ¬ ((cexLoopback.anchorHostTime : ℚ) +
        ((cexLoopback.numberTimeStamps : ℚ) + 1) *
          (cexLoopback.hostTicksPerFrame * (kLoopbackRingBufferFrameSize : ℚ)) ≤ 1) ∧
    (RDC_Device.GetZeroTimeStamp cexLoopback 1).2.hostTime = 1 ∧
    ((cexLoopback.anchorHostTime : ℚ) +
        ((RDC_Device.GetZeroTimeStamp cexLoopback 1).1.numberTimeStamps : ℚ) *
          (cexLoopback.hostTicksPerFrame * (kLoopbackRingBufferFrameSize : ℚ))) = 3 / 2 := by
  refine ⟨?_, ?_, ?_, ?_⟩
  · norm_num [RDC_Device.GetZeroTimeStamp, cexLoopback, kLoopbackRingBufferFrameSize]
  · norm_num [cexLoopback, kLoopbackRingBufferFrameSize]
  · norm_num [RDC_Device.GetZeroTimeStamp, cexLoopback, kLoopbackRingBufferFrameSize]
  · norm_num [RDC_Device.GetZeroTimeStamp, cexLoopback, kLoopbackRingBufferFrameSize]

/-- Claim C7 (amended): after an IO session starts (`_HW_StartIO` resets
the count to 0 and anchors at the current host time), each
GetZeroTimeStamp call increments the count by exactly 1 when
anchorHost + trunc((tsCount+1) × ticksPerFrame × framesPerRing) ≤ now
(the tick offset is TRUNCATED to UInt64 before the comparison, the
amendment the counterexample forces) and leaves it unchanged otherwise;
it returns sampleTime = tsCount × framesPerRing, hostTime =
trunc(anchorHost + tsCount × ticksPerFrame × framesPerRing), and
seed = 1; consequently the returned sampleTime never decreases across
successive calls of a session.  Stated for nonnegative tick rates with
the UInt64 arithmetic not wrapping. -/
theorem claim_C7_zero_timestamp_clock (lt : RDC_LoopbackTime) (now : Nat)
    (htpf : 0 ≤ lt.hostTicksPerFrame)
    (hnw1 : lt.anchorHostTime +
        (Int.floor (((lt.numberTimeStamps : ℚ) + 1) *
          (lt.hostTicksPerFrame * (kLoopbackRingBufferFrameSize : ℚ)))).toNat < 2 ^ 64)
    (hnw2 : (Int.floor ((lt.anchorHostTime : ℚ) + ((lt.numberTimeStamps : ℚ) + 1) *
          (lt.hostTicksPerFrame * (kLoopbackRingBufferFrameSize : ℚ)))).toNat < 2 ^ 64) :
    ((RDC_Device.GetZeroTimeStamp lt now).1.numberTimeStamps =
      if (lt.anchorHostTime : Int) +
          Int.floor (((lt.numberTimeStamps : ℚ) + 1) *
            (lt.hostTicksPerFrame * (kLoopbackRingBufferFrameSize : ℚ))) ≤ (now : Int)
      then lt.numberTimeStamps + 1 else lt.numberTimeStamps) ∧
    (RDC_Device.GetZeroTimeStamp lt now).2.sampleTime =
      ((RDC_Device.GetZeroTimeStamp lt now).1.numberTimeStamps : ℚ) *
        (kLoopbackRingBufferFrameSize : ℚ) ∧
    (RDC_Device.GetZeroTimeStamp lt now).2.hostTime =
      (Int.floor ((lt.anchorHostTime : ℚ) +
        ((RDC_Device.GetZeroTimeStamp lt now).1.numberTimeStamps : ℚ) *
          (lt.hostTicksPerFrame * (kLoopbackRingBufferFrameSize : ℚ)))).toNat ∧
    (RDC_Device.GetZeroTimeStamp lt now).2.seed = 1 ∧
    (lt.numberTimeStamps : ℚ) * (kLoopbackRingBufferFrameSize : ℚ) ≤
      (RDC_Device.GetZeroTimeStamp lt now).2.sampleTime := by
  have hfpr : (0 : ℚ) ≤ (kLoopbackRingBufferFrameSize : ℚ) := by positivity
  have htpr : (0 : ℚ) ≤ lt.hostTicksPerFrame * (kLoopbackRingBufferFrameSize : ℚ) :=
    mul_nonneg htpf hfpr
  have hoff0 : (0 : ℚ) ≤ ((lt.numberTimeStamps : ℚ) + 1) *
      (lt.hostTicksPerFrame * (kLoopbackRingBufferFrameSize : ℚ)) :=
    mul_nonneg (by positivity) htpr
  have hfl0 : 0 ≤ Int.floor (((lt.numberTimeStamps : ℚ) + 1) *
      (lt.hostTicksPerFrame * (kLoopbackRingBufferFrameSize : ℚ))) :=
    Int.floor_nonneg.mpr hoff0
  have hcond : ((lt.anchorHostTime +
        (Int.floor (((lt.numberTimeStamps : ℚ) + 1) *
          (lt.hostTicksPerFrame * (kLoopbackRingBufferFrameSize : ℚ)))).toNat) % 2 ^ 64 ≤ now) ↔
      ((lt.anchorHostTime : Int) +
        Int.floor (((lt.numberTimeStamps : ℚ) + 1) *
          (lt.hostTicksPerFrame * (kLoopbackRingBufferFrameSize : ℚ))) ≤ (now : Int)) := by
    rw [Nat.mod_eq_of_lt hnw1]
    omega
  have hbound : ∀ m : Nat, m ≤ lt.numberTimeStamps + 1 →
      (Int.floor ((lt.anchorHostTime : ℚ) + (m : ℚ) *
        (lt.hostTicksPerFrame * (kLoopbackRingBufferFrameSize : ℚ)))).toNat < 2 ^ 64 := by
    intro m hm
    have hle : (m : ℚ) ≤ (lt.numberTimeStamps : ℚ) + 1 := by
      exact_mod_cast hm
    have hfl : Int.floor ((lt.anchorHostTime : ℚ) + (m : ℚ) *
          (lt.hostTicksPerFrame * (kLoopbackRingBufferFrameSize : ℚ))) ≤
        Int.floor ((lt.anchorHostTime : ℚ) + ((lt.numberTimeStamps : ℚ) + 1) *
          (lt.hostTicksPerFrame * (kLoopbackRingBufferFrameSize : ℚ))) := by
      apply Int.floor_le_floor
      have := mul_le_mul_of_nonneg_right hle htpr
      linarith
    exact lt_of_le_of_lt (Int.toNat_le_toNat hfl) hnw2
  by_cases hc : (lt.anchorHostTime : Int) +
      Int.floor (((lt.numberTimeStamps : ℚ) + 1) *
        (lt.hostTicksPerFrame * (kLoopbackRingBufferFrameSize : ℚ))) ≤ (now : Int)
  · have hcN := hcond.mpr hc
    have e1 : RDC_Device.GetZeroTimeStamp lt now =
        ({ lt with numberTimeStamps := lt.numberTimeStamps + 1 },
          { sampleTime :=
              ((lt.numberTimeStamps + 1 : Nat) : ℚ) * (kLoopbackRingBufferFrameSize : ℚ)
            hostTime := (Int.floor ((lt.anchorHostTime : ℚ) +
              ((lt.numberTimeStamps + 1 : Nat) : ℚ) *
                (lt.hostTicksPerFrame * (kLoopbackRingBufferFrameSize : ℚ)))).toNat % 2 ^ 64
            seed := 1 }) := by
      simp only [RDC_Device.GetZeroTimeStamp]
      rw [if_pos hcN]
    rw [e1]
    refine ⟨?_, rfl, ?_, rfl, ?_⟩
    · rw [if_pos hc]
    · exact Nat.mod_eq_of_lt (hbound (lt.numberTimeStamps + 1) le_rfl)
    · apply mul_le_mul_of_nonneg_right _ hfpr
      push_cast
      linarith
  · have hcN : ¬ ((lt.anchorHostTime +
        (Int.floor (((lt.numberTimeStamps : ℚ) + 1) *
          (lt.hostTicksPerFrame * (kLoopbackRingBufferFrameSize : ℚ)))).toNat) % 2 ^ 64 ≤ now) :=
      fun hx => hc (hcond.mp hx)
    have e2 : RDC_Device.GetZeroTimeStamp lt now =
        (lt,
          { sampleTime :=
              (lt.numberTimeStamps : ℚ) * (kLoopbackRingBufferFrameSize : ℚ)
            hostTime := (Int.floor ((lt.anchorHostTime : ℚ) +
              (lt.numberTimeStamps : ℚ) *
                (lt.hostTicksPerFrame * (kLoopbackRingBufferFrameSize : ℚ)))).toNat % 2 ^ 64
            seed := 1 }) := by
      simp only [RDC_Device.GetZeroTimeStamp]
      rw [if_neg hcN]
    rw [e2]
    refine ⟨?_, rfl, ?_, rfl, le_rfl⟩
    · rw [if_neg hc]
    · exact Nat.mod_eq_of_lt (hbound lt.numberTimeStamps (by omega))

/-- Witness for the amended C7 theorem: a fresh session anchored at 0
with one tick per frame, queried at host time 0: the next ring boundary
(16384 ticks) is not due, so the count stays 0 and seed is 1. -/
theorem claim_C7_zero_timestamp_clock_witness :
    (RDC_Device.GetZeroTimeStamp (RDC_Device.HW_StartIOReset 1 0) 0).1.numberTimeStamps = 0 ∧
    (RDC_Device.GetZeroTimeStamp (RDC_Device.HW_StartIOReset 1 0) 0).2.seed = 1 := by
  have h := claim_C7_zero_timestamp_clock (RDC_Device.HW_StartIOReset 1 0) 0
    (by norm_num [RDC_Device.HW_StartIOReset])
    (by norm_num [RDC_Device.HW_StartIOReset, kLoopbackRingBufferFrameSize])
    (by norm_num [RDC_Device.HW_StartIOReset, kLoopbackRingBufferFrameSize])
  refine ⟨?_, h.2.2.2.1⟩
  rw [h.1, if_neg (by norm_num [RDC_Device.HW_StartIOReset, kLoopbackRingBufferFrameSize])]
  rfl

/-- Modelled from the spec: the constant kSampleRateDefault is declared
in RDC_Device.h, which is not in the tree; spec §6: the sample rate
defaults to 44100 Hz.  The RDC_Device constructor applies it through
SetSampleRate(kSampleRateDefault, true). -/
def kSampleRateDefault : ℚ := 44100

/-- Embeds the sample-rate-related device state (RDC_Device.cpp):
the loopback (nominal) rate, the pending rate staged for the
config-change protocol, the loopback clock rate `hostTicksPerFrame`
recomputed by InitLoopback, and the advertised stream rates. -/
structure RDC_DeviceState where
  mLoopbackSampleRate : ℚ
  mPendingSampleRate : ℚ
  mHostTicksPerFrame : ℚ
  mInputStreamRate : ℚ
  mOutputStreamRate : ℚ
  deriving DecidableEq, Repr

/-- Embeds RDC_Device::GetSampleRate (RDC_Device.cpp lines 1233-1252):
with no wrapped engine (it is never instantiated) the loopback rate is
reported. -/
def RDC_Device.GetSampleRate (s : RDC_DeviceState) : ℚ := s.mLoopbackSampleRate

/-- Embeds RDC_Device::RequestSampleRate (RDC_Device.cpp lines
1254-1281): throws UnsupportedFormat when the requested rate is below
1.0 — that is the ONLY range check — then stages the pending rate when
it differs from the current one (the config-change request to the host
is asynchronous signalling, not state). -/
def RDC_Device.RequestSampleRate (s : RDC_DeviceState) (r : ℚ) :
    Except RDCError RDC_DeviceState :=
  if r < 1 then .error .unsupportedFormat
  else if r ≠ RDC_Device.GetSampleRate s then .ok { s with mPendingSampleRate := r }
  else .ok s

/-- Embeds RDC_Device::SetSampleRate (RDC_Device.cpp lines 1378-1417):
throws UnsupportedFormat when the rate is below 1.0 — again the only
range check — then, when the rate differs or `force` is set, updates the
loopback rate, recomputes `hostTicksPerFrame = hostClockFrequency /
rate` (InitLoopback), and updates both streams' rates. -/
def RDC_Device.SetSampleRate (hostFreq : ℚ) (s : RDC_DeviceState) (r : ℚ) (force : Bool) :
    Except RDCError RDC_DeviceState :=
  if r < 1 then .error .unsupportedFormat
  else if r ≠ RDC_Device.GetSampleRate s ∨ force = true then
    .ok { s with
          mLoopbackSampleRate := r
          mHostTicksPerFrame := hostFreq / r
          mInputStreamRate := r
          mOutputStreamRate := r }
  else .ok s

/-- A device state at the default rate, used in concrete scenarios. -/
def cexDevice : RDC_DeviceState :=
  { mLoopbackSampleRate := 44100
    mPendingSampleRate := 44100
    mHostTicksPerFrame := 1
    mInputStreamRate := 44100
    mOutputStreamRate := 44100 }

/-- Claim C8 counterexample: both setters accept the rate 2×10⁹ Hz,
which lies strictly above the claimed upper bound 1×10⁹ — the code
checks only the lower bound (RDC_Device.cpp lines 1260, 1381); the 10⁹
figure is merely the advertised maximum of
kAudioDevicePropertyAvailableNominalSampleRates (line 755). -/
theorem claim_C8_counterexample :
    exceptOk (RDC_Device.RequestSampleRate cexDevice (2 * 10 ^ 9)) = true ∧
    exceptOk (RDC_Device.SetSampleRate (10 ^ 9) cexDevice (2 * 10 ^ 9) false) = true ∧
    (1 * 10 ^ 9 : ℚ) < 2 * 10 ^ 9 := by
  refine ⟨?_, ?_, by norm_num⟩ <;>
    norm_num [RDC_Device.RequestSampleRate, RDC_Device.SetSampleRate,
      RDC_Device.GetSampleRate, cexDevice, exceptOk]

/-- Claim C8 (amended): the sample-rate setters reject a requested rate
with UnsupportedFormat exactly when it is below 1 Hz and accept every
rate of at least 1 Hz — there is no upper bound (the amendment the
counterexample forces) — and the constructor's
SetSampleRate(kSampleRateDefault, force) call leaves the device
reporting the default 44100 Hz. -/
theorem claim_C8_sample_rate_range (hostFreq : ℚ) (s : RDC_DeviceState) (r : ℚ)
    (force : Bool) :
    (RDC_Device.RequestSampleRate s r = .error .unsupportedFormat ↔ r < 1) ∧
    (exceptOk (RDC_Device.RequestSampleRate s r) = true ↔ 1 ≤ r) ∧
    (RDC_Device.SetSampleRate hostFreq s r force = .error .unsupportedFormat ↔ r < 1) ∧
    (exceptOk (RDC_Device.SetSampleRate hostFreq s r force) = true ↔ 1 ≤ r) ∧
    (∀ s2, RDC_Device.SetSampleRate hostFreq s kSampleRateDefault true = .ok s2 →
      RDC_Device.GetSampleRate s2 = 44100) := by
  by_cases hr : r < 1
  · have hn : ¬ (1 : ℚ) ≤ r := by linarith
    refine ⟨?_, ?_, ?_, ?_, ?_⟩
    · simp [RDC_Device.RequestSampleRate, hr]
    · simp [RDC_Device.RequestSampleRate, hr, hn]
    · simp [RDC_Device.SetSampleRate, hr]
    · simp [RDC_Device.SetSampleRate, hr, hn]
    · intro s2 hs2
      have hd : ¬ (kSampleRateDefault < 1) := by norm_num [kSampleRateDefault]
      simp only [RDC_Device.SetSampleRate, if_neg hd, or_true, if_true] at hs2
      cases hs2
      simp [RDC_Device.GetSampleRate, kSampleRateDefault]
  · have h1 : (1 : ℚ) ≤ r := by linarith
    refine ⟨?_, ?_, ?_, ?_, ?_⟩
    · constructor
      · intro he
        by_cases hdiff : r ≠ RDC_Device.GetSampleRate s <;>
          simp [RDC_Device.RequestSampleRate, hr, hdiff] at he
      · intro hlt; exact absurd hlt hr
    · by_cases hdiff : r ≠ RDC_Device.GetSampleRate s <;>
        simp [RDC_Device.RequestSampleRate, hr, hdiff, h1]
    · constructor
      · intro he
        by_cases hdiff : r ≠ RDC_Device.GetSampleRate s ∨ force = true <;>
          simp [RDC_Device.SetSampleRate, hr, hdiff] at he
      · intro hlt; exact absurd hlt hr
    · by_cases hdiff : r ≠ RDC_Device.GetSampleRate s ∨ force = true <;>
        simp [RDC_Device.SetSampleRate, hr, hdiff, h1]
    · intro s2 hs2
      have hd : ¬ (kSampleRateDefault < 1) := by norm_num [kSampleRateDefault]
      simp only [RDC_Device.SetSampleRate, if_neg hd, or_true, if_true] at hs2
      cases hs2
      simp [RDC_Device.GetSampleRate, kSampleRateDefault]

/-- Witness for the amended C8 theorem: half a hertz is rejected with
UnsupportedFormat, 96 kHz is accepted, and forcing the default leaves
44100. -/
theorem claim_C8_sample_rate_range_witness :
    (RDC_Device.RequestSampleRate cexDevice (1 / 2) = .error .unsupportedFormat) ∧
    exceptOk (RDC_Device.RequestSampleRate cexDevice 96000) = true := by
  have ha := claim_C8_sample_rate_range 1 cexDevice (1 / 2) false
  have hb := claim_C8_sample_rate_range 1 cexDevice 96000 false
  exact ⟨ha.1.mpr (by norm_num), hb.2.1.mpr (by norm_num)⟩
